import Mathlib

/-!
Verification development for the gpx_ride_explorer repository.

This file gives a shallow embedding, in Lean 4, of the activity/stream
ingestion pipeline (`src/app/strava/sync.py`), the Strava client token
refresh (`src/app/strava/client.py`), the webhook event handler
(`src/app/strava/webhook.py`) and the training-load analytics
(`src/app/analytics/pmc.py`), together with theorems settling the
specification claims about this code.

Modelling conventions:
- database rows are plain records; the database session is a `DB` record
  holding the three tables as lists, threaded explicitly through each
  function; `commit` corresponds to returning the updated `DB`, and a
  raised exception corresponds to returning `Except.error` with the
  original `DB` discarded by the caller (no partial flush survives);
- UUIDs are modelled as natural numbers drawn from a `nextId` counter
  (their only role in the claims is identity);
- datetimes are epoch seconds (`Int`); `dt.timedelta(minutes=5)` is 300;
- Python floats are modelled as rationals (`ℚ`), Python `None` as
  `Option.none`, and JSON-dict key absence as `none` of an `Option` field;
- the remote Strava API is an explicit input (`Remote`): the responses
  the two HTTP requests of `fetch_and_store_activity` would yield; the
  result records how many external requests were actually performed and
  which bearer token was sent, so that claims about "no external fetch"
  and about the token used are statable;
- logging is not modelled (it does not affect state or results).
-/

namespace RideApp

/-- Table `users` (src/app/db/models.py, class User). -/
structure User where
  id : Nat
  strava_athlete_id : Nat
  access_token : String
  refresh_token : String
  token_expires_at : Option Int
deriving DecidableEq, Repr

/-- Table `activities` (src/app/db/models.py, class Activity). -/
structure Activity where
  id : Nat
  user_id : Nat
  strava_id : Nat
  name : String
  start_time : Int
  distance_m : ℚ
  moving_time_s : Int
  elev_gain_m : Option ℚ
  avg_power : Option ℚ
  avg_hr : Option ℚ
  tss : Option ℚ
  np : Option ℚ
deriving DecidableEq, Repr

/-- Table `streams` (src/app/db/models.py, class Stream). All columns are
nullable in the schema, so each field is an `Option`; the ingestion code
always writes a concrete 0/1 integer to `moving` and a concrete number to
`distance`, which the theorems below make explicit. -/
structure Stream where
  id : Nat
  activity_id : Nat
  timestamp : Int
  lat : Option ℚ
  lon : Option ℚ
  altitude : Option ℚ
  distance : ℚ
  velocity_smooth : Option ℚ
  heartrate : Option Int
  cadence : Option Int
  watts : Option Int
  temp : Option ℚ
  moving : Option Int
  grade_smooth : Option ℚ
deriving DecidableEq, Repr

/-- The database state threaded through the pipeline, plus a counter
supplying fresh identifiers (standing in for `uuid.uuid4()`). -/
structure DB where
  users : List User
  activities : List Activity
  streams : List Stream
  nextId : Nat
deriving DecidableEq, Repr

/-- JSON body of a successful `GET /activities/{id}` response, restricted
to the keys `fetch_and_store_activity` reads. Keys read with `.get(...)`
(and so allowed to be absent or null) are `Option`. -/
structure ActivityMeta where
  name : String
  start_date : Int
  distance : ℚ
  moving_time : Int
  total_elevation_gain : Option ℚ
  average_watts : Option ℚ
  average_heartrate : Option ℚ
deriving DecidableEq, Repr

/-- Python truthiness applied to an optional float:
`float(d[k]) if d.get(k) else None` yields `None` when the key is absent,
null, or maps to 0.0 (falsy). -/
def optNonzero (o : Option ℚ) : Option ℚ :=
  match o with
  | some v => if v = 0 then none else some v
  | none => none

/-- JSON body of a successful streams response, keyed by type: each field
is `some data` when the channel key is present, `none` when the source
returned no data for it. `latlng` entries are `none` where the source has
an empty/falsy entry; `moving` entries are booleans. -/
structure StreamsData where
  time : Option (List Int)
  latlng : Option (List (Option (ℚ × ℚ)))
  altitude : Option (List (Option ℚ))
  heartrate : Option (List (Option Int))
  watts : Option (List (Option Int))
  cadence : Option (List (Option Int))
  velocity_smooth : Option (List (Option ℚ))
  temp : Option (List (Option ℚ))
  moving : Option (List Bool)
  grade_smooth : Option (List (Option ℚ))
deriving DecidableEq, Repr

/-- Python truthiness of the parsed streams dict (`if streams:`): the
dict is falsy exactly when it has no keys at all. -/
def StreamsData.isEmpty (sd : StreamsData) : Bool :=
  sd.time.isNone && sd.latlng.isNone && sd.altitude.isNone &&
  sd.heartrate.isNone && sd.watts.isNone && sd.cadence.isNone &&
  sd.velocity_smooth.isNone && sd.temp.isNone && sd.moving.isNone &&
  sd.grade_smooth.isNone

/-- Outcome of the metadata HTTP request: a 200 body, or a non-success
status (whose text is interpolated into the raised exception). -/
inductive FetchResult (α : Type) where
  | ok (data : α)
  | httpError (text : String)
deriving DecidableEq, Repr

/-- Outcome of the streams HTTP request: a 200 body, a non-success status
(logged as a warning), or an exception raised during the fetch (logged as
an error); the latter two are absorbed by `fetch_and_store_activity`. -/
inductive StreamFetch where
  | ok (sd : StreamsData)
  | httpError (status : Nat) (text : String)
  | exn (msg : String)
deriving DecidableEq, Repr

/-- The remote responses the external source would serve for one
activity: what `fetch_and_store_activity`'s two requests would receive. -/
structure Remote where
  activityFetch : FetchResult ActivityMeta
  streamsFetch : StreamFetch
deriving DecidableEq, Repr

/-- Errors raised (uncaught) by the sync functions. -/
inductive SyncError where
  | userNotFound (user_id : Nat)
  | activityFetchFailed (text : String)
  | tokenRefreshFailed (text : String)
deriving DecidableEq, Repr

/-- Result of a successful `fetch_and_store_activity` run: the returned
activity id, the committed database state, instrumentation counting the
external HTTP requests performed, the bearer token sent in their
`Authorization` header (`none` when no request was made), and whether the
analytics recalculation task was enqueued. -/
structure IngestResult where
  activityId : Nat
  db : DB
  metadataFetches : Nat
  streamFetches : Nat
  bearerToken : Option String
  recalcEnqueued : Bool
deriving DecidableEq, Repr

/-- Stream-row construction loop of `fetch_and_store_activity`
(src/app/strava/sync.py lines 111-152): given the mandatory `time` and
`latlng` channel data, each optional channel defaults to `[None] *
len(time_data)` when absent, and one `Stream` row is built per index of
the time channel. Row ids stand in for `uuid.uuid4()`. -/
def buildStreamRows (aid : Nat) (firstRowId : Nat) (start : Int)
    (time_data : List Int) (latlng_data : List (Option (ℚ × ℚ)))
    (sd : StreamsData) : List Stream :=
  let n := time_data.length
  let altitude_data := sd.altitude.getD (List.replicate n none)
  let heartrate_data := sd.heartrate.getD (List.replicate n none)
  let watts_data := sd.watts.getD (List.replicate n none)
  let cadence_data := sd.cadence.getD (List.replicate n none)
  let velocity_data := sd.velocity_smooth.getD (List.replicate n none)
  let temp_data := sd.temp.getD (List.replicate n none)
  let moving_data := match sd.moving with
    | some l => l.map some
    | none => List.replicate n (none : Option Bool)
  let grade_data := sd.grade_smooth.getD (List.replicate n none)
  (List.range n).map fun i =>
    let ll := latlng_data.getD i none
    { id := firstRowId + i
      activity_id := aid
      timestamp := start + time_data.getD i 0
      lat := ll.map Prod.fst
      lon := ll.map Prod.snd
      altitude := altitude_data.getD i none
      distance := (time_data.getD i 0 : ℚ) * ((velocity_data.getD i none).getD 0)
      velocity_smooth := velocity_data.getD i none
      heartrate := heartrate_data.getD i none
      cadence := cadence_data.getD i none
      watts := watts_data.getD i none
      temp := temp_data.getD i none
      moving := some (if moving_data ≠ [] ∧ moving_data.getD i none = some true then 1 else 0)
      grade_smooth := grade_data.getD i none }

/-- The new Activity row staged by `fetch_and_store_activity`
(src/app/strava/sync.py lines 72-83): fields copied from the metadata
response, with the optional metrics subject to Python truthiness and the
`tss`/`np` columns left unset. -/
def newActivityOf (db : DB) (strava_activity_id : Nat) (user : User)
    (meta : ActivityMeta) : Activity :=
  { id := db.nextId
    user_id := user.id
    strava_id := strava_activity_id
    name := meta.name
    start_time := meta.start_date
    distance_m := meta.distance
    moving_time_s := meta.moving_time
    elev_gain_m := optNonzero meta.total_elevation_gain
    avg_power := optNonzero meta.average_watts
    avg_hr := optNonzero meta.average_heartrate
    tss := none
    np := none }

/-- Stream rows produced for the new activity (src/app/strava/sync.py
lines 88-160): nothing on a non-success streams response or a raised
exception (both absorbed), nothing when the parsed dict is falsy or the
mandatory `time`/`latlng` channels are missing; otherwise the rows built
per time-channel index. -/
def ingestRows (db : DB) (meta : ActivityMeta) (sf : StreamFetch) :
    List Stream :=
  match sf with
  | .ok sd =>
    if sd.isEmpty then []
    else
      match sd.time, sd.latlng with
      | some time_data, some latlng_data =>
        buildStreamRows db.nextId (db.nextId + 1) meta.start_date
          time_data latlng_data sd
      | _, _ => []
  | _ => []

/-- Embedding of `fetch_and_store_activity` (src/app/strava/sync.py lines
43-168). Looks up the user (raising if absent), short-circuits when an
Activity with this `strava_id` already exists, otherwise fetches metadata
with `Bearer user.access_token` (raising on a non-200), stages the new
Activity row, attempts the streams fetch (failures absorbed), bulk-adds
the built rows, commits, and returns the new id. The analytics
recalculation enqueue is recorded in `recalcEnqueued`. -/
def fetch_and_store_activity (db : DB) (user_id : Nat)
    (strava_activity_id : Nat) (remote : Remote) :
    Except SyncError IngestResult :=
  match db.users.find? (fun u => u.id == user_id) with
  | none => .error (.userNotFound user_id)
  | some user =>
    match db.activities.find? (fun a => a.strava_id == strava_activity_id) with
    | some existing =>
      .ok { activityId := existing.id, db := db, metadataFetches := 0,
            streamFetches := 0, bearerToken := none, recalcEnqueued := false }
    | none =>
      match remote.activityFetch with
      | .httpError text => .error (.activityFetchFailed text)
      | .ok meta =>
        let new_activity := newActivityOf db strava_activity_id user meta
        let rows := ingestRows db meta remote.streamsFetch
        .ok { activityId := new_activity.id
              db := { db with
                      activities := db.activities ++ [new_activity]
                      streams := db.streams ++ rows
                      nextId := db.nextId + 1 + rows.length }
              metadataFetches := 1
              streamFetches := 1
              bearerToken := some user.access_token
              recalcEnqueued := true }

/-- Strava's response to `POST /oauth/token` with grant_type
refresh_token, restricted to the keys read by `get_client`. -/
structure RefreshResponse where
  access_token : String
  refresh_token : String
  expires_at : Int
deriving DecidableEq, Repr

/-- Replacement of the first user with the given id, modelling the ORM
mutating the row object returned by the query and committing. -/
def updateUser (l : List User) (uid : Nat) (u' : User) : List User :=
  match l with
  | [] => []
  | v :: vs => if v.id == uid then u' :: vs else v :: updateUser vs uid u'

/-- The User row after a token refresh (src/app/strava/client.py lines
50-53): access token, refresh token and expiry replaced by the refresh
response's values. -/
def refreshedUser (user : User) (refresh : RefreshResponse) : User :=
  { user with
    access_token := refresh.access_token
    refresh_token := refresh.refresh_token
    token_expires_at := some refresh.expires_at }

/-- Embedding of `get_client` (src/app/strava/client.py lines 19-59).
When an access token is supplied it is used directly; when a user id is
supplied the user's token is looked up and refreshed first if it expires
within 5 minutes (300 s) of `now`, persisting the refreshed credential
back to the User record; otherwise a client with no token is returned.
`refresh` is the response the token-refresh endpoint would serve. Returns
the bearer token carried by the client and the resulting database. -/
def get_client (db : DB) (access_token : Option String)
    (user_id : Option Nat) (now : Int) (refresh : RefreshResponse) :
    Except SyncError (Option String × DB) :=
  match access_token with
  | some t => .ok (some t, db)
  | none =>
    match user_id with
    | none => .ok (none, db)
    | some uid =>
      match db.users.find? (fun u => u.id == uid) with
      | none => .error (.userNotFound uid)
      | some user =>
        match user.token_expires_at with
        | some exp =>
          if exp ≤ now + 300 then
            .ok (some refresh.access_token,
                 { db with users :=
                     updateUser db.users user.id (refreshedUser user refresh) })
          else .ok (some user.access_token, db)
        | none => .ok (some user.access_token, db)

/-- Parsed JSON body of a webhook POST, restricted to the keys the
handler reads; `none` models an absent key (a `body[...]` access on an
absent key raises `KeyError`, caught by the handler's `except`). -/
structure WebhookBody where
  aspect_type : Option String
  object_type : Option String
  object_id : Option Nat
  owner_id : Option Nat
deriving DecidableEq, Repr

/-- Outcome of the webhook POST handler: a raised `HTTPException`
(`rejected`) or a JSON response; `enqueued` lists the
`enqueue_activity_fetch.delay(user_id, activity_id)` calls made. The
handler only reads the database, so no state is returned. -/
inductive WebhookResult where
  | rejected (status : Nat) (detail : String)
  | response (status : String) (message : String) (enqueued : List (Nat × Nat))
deriving DecidableEq, Repr

/-- Event-processing body of `webhook_event` (src/app/strava/webhook.py
lines 96-120): on a create/activity event, read `object_id` and
`owner_id` (a missing key raises `KeyError`, caught and turned into an
error-status response), look up the user by `strava_athlete_id`, and
either enqueue one fetch task or acknowledge with an error status;
any other event is acknowledged and ignored. -/
def process_event (db : DB) (body : WebhookBody) : WebhookResult :=
  if body.aspect_type = some "create" ∧ body.object_type = some "activity" then
    match body.object_id, body.owner_id with
    | some oid, some owner =>
      match db.users.find? (fun u => u.strava_athlete_id == owner) with
      | some user =>
        .response "ok"
          ("Activity " ++ toString oid ++ " queued for processing")
          [(user.id, oid)]
      | none =>
        .response "error"
          ("No user found for Strava athlete ID: " ++ toString owner) []
    | _, _ => .response "error" "KeyError" []
  else .response "ok" "Event ignored" []

/-- Embedding of the POST `webhook_event` handler (src/app/strava/
webhook.py lines 67-120). `computed_signature` is the HMAC-SHA1 hex
digest of the raw request body under `settings.STRAVA_CLIENT_SECRET`
(the hash primitive itself is not embedded: the handler is parametric in
the digest its `hmac.new(...).hexdigest()` call computes). When the
`X-Hub-Signature` header is present it must equal
`"sha1=" ++ computed_signature` (the code compares with
`hmac.compare_digest`, a constant-time equality); a mismatch raises
HTTP 403 before anything is enqueued. -/
def webhook_event (db : DB) (signature_header : Option String)
    (computed_signature : String) (body : WebhookBody) : WebhookResult :=
  match signature_header with
  | some sig =>
    if ("sha1=" ++ computed_signature) = sig then process_event db body
    else .rejected 403 "Invalid signature"
  | none => process_event db body

/-- One EWMA step with smoothing factor `alpha`:
`S[i] = alpha * x[i] + (1 - alpha) * S[i-1]`. -/
def ewmStep (alpha : ℚ) (prev x : ℚ) : ℚ :=
  alpha * x + (1 - alpha) * prev

/-- Tail of the adjust=false EWMA: successive states after `s`. -/
def ewmFrom (alpha : ℚ) (s : ℚ) : List ℚ → List ℚ
  | [] => []
  | x :: xs =>
    let s' := ewmStep alpha s x
    s' :: ewmFrom alpha s' xs

/-- Embedding of `calc_ctl_atl` (src/app/analytics/pmc.py lines 24-26):
`tss_series.ewm(alpha=1/tau, adjust=False).mean()`, i.e. the recurrence
`S[0] = x[0]`, `S[i] = (1/tau)·x[i] + (1 − 1/tau)·S[i-1]`, over exact
rational arithmetic. -/
def calc_ctl_atl (tss_series : List ℚ) (tau : ℕ) : List ℚ :=
  match tss_series with
  | [] => []
  | x :: xs => x :: ewmFrom (1 / (tau : ℚ)) x xs

/-- Modelled from the spec: `recalc_metrics_for_activity`
(src/app/analytics/pmc.py lines 28-43) is a stub whose per-day series
rebuild is an unimplemented target interface (spec section 4.3 and
section 9); the spec defines the recalculated series as CTL and ATL, the
two `calc_ctl_atl` instantiations with a long and a short time constant,
and TSB as CTL minus ATL computed pointwise. -/
def recalc_series (tss : List ℚ) (tauCtl tauAtl : ℕ) :
    List ℚ × List ℚ × List ℚ :=
  let ctl := calc_ctl_atl tss tauCtl
  let atl := calc_ctl_atl tss tauAtl
  (ctl, atl, List.zipWith (fun a b => a - b) ctl atl)

/-- One entry of the paginated `/athlete/activities` listing, with the
remote responses `fetch_and_store_activity` would receive for it. -/
structure FetchedActivity where
  type : String
  id : Nat
  remote : Remote
deriving DecidableEq, Repr

/-- Ingestion loop of `sync_initial_activities` (src/app/strava/sync.py
lines 244-258): fold over the fetched activity list, skipping every
activity whose `type` is not `'Ride'`, ingesting the rest and counting
the successes; a per-activity ingestion error is logged and skipped. -/
def sync_initial_activities_loop (uid : Nat) (db : DB)
    (all_activities : List FetchedActivity) : DB × Nat :=
  all_activities.foldl
    (fun st a =>
      if a.type ≠ "Ride" then st
      else
        match fetch_and_store_activity st.1 uid a.id a.remote with
        | .ok r => (r.db, st.2 + 1)
        | .error _ => (st.1, st.2))
    (db, 0)

/-! ### Helper lemmas about the EWMA -/

theorem ewmFrom_length (a s : ℚ) (l : List ℚ) :
    (ewmFrom a s l).length = l.length := by
  induction l generalizing s with
  | nil => rfl
  | cons x xs ih => simp [ewmFrom, ih]

theorem ewmFrom_getD (a : ℚ) (l : List ℚ) (s : ℚ) (i : ℕ)
    (h : i < l.length) :
    (ewmFrom a s l).getD i 0 =
      ewmStep a ((s :: ewmFrom a s l).getD i 0) (l.getD i 0) := by
  induction l generalizing s i with
  | nil => simp at h
  | cons x xs ih =>
    cases i with
    | zero => simp [ewmFrom]
    | succ j =>
      have hj : j < xs.length := by simpa using h
      have := ih (ewmStep a s x) j hj
      simpa [ewmFrom] using this

theorem ewmStep_const (a c : ℚ) : ewmStep a c c = c := by
  unfold ewmStep; ring

theorem ewmFrom_replicate (a c : ℚ) (k : ℕ) :
    ewmFrom a c (List.replicate k c) = List.replicate k c := by
  induction k with
  | zero => rfl
  | succ m ih =>
    simp only [List.replicate_succ, ewmFrom, ewmStep_const]
    rw [ih]

theorem calc_ctl_atl_length (xs : List ℚ) (tau : ℕ) :
    (calc_ctl_atl xs tau).length = xs.length := by
  cases xs with
  | nil => rfl
  | cons x rest => simp [calc_ctl_atl, ewmFrom_length]

theorem calc_ctl_atl_replicate (c : ℚ) (n tau : ℕ) :
    calc_ctl_atl (List.replicate n c) tau = List.replicate n c := by
  cases n with
  | zero => rfl
  | succ m =>
    simp only [List.replicate_succ, calc_ctl_atl]
    rw [ewmFrom_replicate]

/-! ### Claim theorems -/

/-- C2: `calc_ctl_atl(x, tau)` with `tau > 1` returns a series of the same
length as `x` with `S[0] = x[0]` and
`S[i] = (1/tau)·x[i] + (1 − 1/tau)·S[i-1]` for `i ≥ 1`, and on a constant
input series it is constantly equal to the input value at every index. -/
theorem C2_calc_ctl_atl_ewma (xs : List ℚ) (tau : ℕ) (h : 1 < tau) :
    (calc_ctl_atl xs tau).length = xs.length ∧
    (∀ x rest, xs = x :: rest → (calc_ctl_atl xs tau).getD 0 0 = x) ∧
    (∀ i, i + 1 < xs.length →
      (calc_ctl_atl xs tau).getD (i + 1) 0 =
        (1 / (tau : ℚ)) * xs.getD (i + 1) 0 +
          (1 - 1 / (tau : ℚ)) * (calc_ctl_atl xs tau).getD i 0) ∧
    (∀ c n, xs = List.replicate n c → calc_ctl_atl xs tau = List.replicate n c) := by
  refine ⟨calc_ctl_atl_length xs tau, ?_, ?_, ?_⟩
  · intro x rest hx
    subst hx
    rfl
  · intro i hi
    cases xs with
    | nil => simp at hi
    | cons x rest =>
      have hi' : i < rest.length := by simpa using hi
      have hrec := ewmFrom_getD (1 / (tau : ℚ)) rest x i hi'
      simp only [calc_ctl_atl, List.getD_cons_succ]
      rw [hrec]
      simp [ewmStep]
  · intro c n hx
    subst hx
    exact calc_ctl_atl_replicate c n tau

/-- Witness for C2 at `xs = [3, 5]`, `tau = 2`. -/
theorem C2_witness :
    (1 < 2) ∧
    ((calc_ctl_atl [3, 5] 2).length = ([3, 5] : List ℚ).length ∧
     (∀ x rest, ([3, 5] : List ℚ) = x :: rest →
        (calc_ctl_atl [3, 5] 2).getD 0 0 = x) ∧
     (∀ i, i + 1 < ([3, 5] : List ℚ).length →
        (calc_ctl_atl [3, 5] 2).getD (i + 1) 0 =
          (1 / ((2 : ℕ) : ℚ)) * ([3, 5] : List ℚ).getD (i + 1) 0 +
            (1 - 1 / ((2 : ℕ) : ℚ)) * (calc_ctl_atl [3, 5] 2).getD i 0) ∧
     (∀ c n, ([3, 5] : List ℚ) = List.replicate n c →
        calc_ctl_atl [3, 5] 2 = List.replicate n c)) :=
  ⟨by decide, C2_calc_ctl_atl_ewma [3, 5] 2 (by decide)⟩

theorem zipWith_sub_getD (l1 l2 : List ℚ) (i : ℕ)
    (h1 : i < l1.length) (h2 : i < l2.length) :
    (List.zipWith (fun a b => a - b) l1 l2).getD i 0 =
      l1.getD i 0 - l2.getD i 0 := by
  induction l1 generalizing l2 i with
  | nil => simp at h1
  | cons x xs ih =>
    cases l2 with
    | nil => simp at h2
    | cons y ys =>
      cases i with
      | zero => simp
      | succ j =>
        simp only [List.zipWith_cons_cons, List.getD_cons_succ]
        exact ih ys j (by simpa using h1) (by simpa using h2)

/-- C8: in a recalculated training-load series, TSB equals CTL minus ATL
pointwise at every day of the series. The recalculation task itself is a
stub in the source, so the series rebuild is modelled from the spec
(`recalc_series`), built on the source's `calc_ctl_atl`. -/
theorem C8_tsb_eq_ctl_sub_atl (tss : List ℚ) (tauCtl tauAtl : ℕ) (i : ℕ)
    (hi : i < tss.length) :
    (recalc_series tss tauCtl tauAtl).2.2.getD i 0 =
      (recalc_series tss tauCtl tauAtl).1.getD i 0 -
        (recalc_series tss tauCtl tauAtl).2.1.getD i 0 := by
  simp only [recalc_series]
  exact zipWith_sub_getD _ _ i
    (by rw [calc_ctl_atl_length]; exact hi)
    (by rw [calc_ctl_atl_length]; exact hi)

/-- Witness for C8 at `tss = [10, 0]`, CTL/ATL time constants 42 and 7,
day index 1. -/
theorem C8_witness :
    1 < ([10, 0] : List ℚ).length ∧
    (recalc_series [10, 0] 42 7).2.2.getD 1 0 =
      (recalc_series [10, 0] 42 7).1.getD 1 0 -
        (recalc_series [10, 0] 42 7).2.1.getD 1 0 :=
  ⟨by decide, C8_tsb_eq_ctl_sub_atl [10, 0] 42 7 1 (by decide)⟩

theorem foldl_filter_invariant {α β : Type} (p : α → Bool) (f : β → α → β)
    (hf : ∀ b a, p a = false → f b a = b) :
    ∀ (l : List α) (b : β), l.foldl f b = (l.filter p).foldl f b := by
  intro l
  induction l with
  | nil => intro b; rfl
  | cons a rest ih =>
    intro b
    cases hp : p a with
    | false =>
      rw [List.filter_cons, if_neg (by simp [hp]), List.foldl_cons, hf b a hp]
      exact ih b
    | true =>
      rw [List.filter_cons, if_pos (by simp [hp]), List.foldl_cons,
        List.foldl_cons]
      exact ih (f b a)

/-- C9: the `sync_initial_activities` ingestion loop ingests only fetched
activities whose `type` is `'Ride'`: folding over the full listing gives
the same final database state and the same returned count as folding over
the listing restricted to rides, so every non-Ride entry contributes
nothing. -/
theorem C9_sync_initial_rides_only (uid : Nat) (db : DB)
    (acts : List FetchedActivity) :
    sync_initial_activities_loop uid db acts =
      sync_initial_activities_loop uid db
        (acts.filter (fun a => a.type == "Ride")) := by
  unfold sync_initial_activities_loop
  exact foldl_filter_invariant _ _
    (by
      intro st a ha
      have hne : a.type ≠ "Ride" := by simpa using ha
      rw [if_pos hne])
    acts (db, 0)

/-! ### Equation lemmas for `fetch_and_store_activity` -/

theorem fetch_eq_of_existing {db : DB} {uid aid : Nat} {remote : Remote}
    {user : User} {existing : Activity}
    (hu : db.users.find? (fun u => u.id == uid) = some user)
    (hex : db.activities.find? (fun a => a.strava_id == aid) = some existing) :
    fetch_and_store_activity db uid aid remote =
      .ok { activityId := existing.id, db := db, metadataFetches := 0,
            streamFetches := 0, bearerToken := none,
            recalcEnqueued := false } := by
  simp only [fetch_and_store_activity, hu, hex]

theorem fetch_eq_of_new {db : DB} {uid aid : Nat} {remote : Remote}
    {user : User} {meta : ActivityMeta}
    (hu : db.users.find? (fun u => u.id == uid) = some user)
    (hex : db.activities.find? (fun a => a.strava_id == aid) = none)
    (hm : remote.activityFetch = .ok meta) :
    fetch_and_store_activity db uid aid remote =
      .ok { activityId := db.nextId
            db := { db with
                    activities :=
                      db.activities ++ [newActivityOf db aid user meta]
                    streams :=
                      db.streams ++ ingestRows db meta remote.streamsFetch
                    nextId :=
                      db.nextId + 1 +
                        (ingestRows db meta remote.streamsFetch).length }
            metadataFetches := 1
            streamFetches := 1
            bearerToken := some user.access_token
            recalcEnqueued := true } := by
  simp only [fetch_and_store_activity, hu, hex, hm, newActivityOf]

theorem fetch_ok_inversion {db : DB} {uid aid : Nat} {remote : Remote}
    {r : IngestResult}
    (h : fetch_and_store_activity db uid aid remote = .ok r) :
    (∃ user existing,
      db.users.find? (fun u => u.id == uid) = some user ∧
      db.activities.find? (fun a => a.strava_id == aid) = some existing ∧
      r = { activityId := existing.id, db := db, metadataFetches := 0,
            streamFetches := 0, bearerToken := none,
            recalcEnqueued := false }) ∨
    (∃ user meta,
      db.users.find? (fun u => u.id == uid) = some user ∧
      db.activities.find? (fun a => a.strava_id == aid) = none ∧
      remote.activityFetch = .ok meta ∧
      r = { activityId := db.nextId
            db := { db with
                    activities :=
                      db.activities ++ [newActivityOf db aid user meta]
                    streams :=
                      db.streams ++ ingestRows db meta remote.streamsFetch
                    nextId :=
                      db.nextId + 1 +
                        (ingestRows db meta remote.streamsFetch).length }
            metadataFetches := 1
            streamFetches := 1
            bearerToken := some user.access_token
            recalcEnqueued := true }) := by
  cases hu : db.users.find? (fun u => u.id == uid) with
  | none =>
    simp only [fetch_and_store_activity, hu] at h
    exact Except.noConfusion h
  | some user =>
    cases hex : db.activities.find? (fun a => a.strava_id == aid) with
    | some existing =>
      left
      simp only [fetch_and_store_activity, hu, hex] at h
      injection h with h
      exact ⟨user, existing, rfl, rfl, h.symm⟩
    | none =>
      cases hm : remote.activityFetch with
      | httpError text =>
        simp only [fetch_and_store_activity, hu, hex, hm] at h
        exact Except.noConfusion h
      | ok meta =>
        right
        simp only [fetch_and_store_activity, hu, hex, hm] at h
        injection h with h
        exact ⟨user, meta, rfl, rfl, rfl, h.symm⟩

/-- C1: once `fetch_and_store_activity` has succeeded for a
`(user_id, strava_activity_id)` pair, a second call with the same pair
returns the same activity identifier, performs no external request (both
request counters are 0 and no bearer token is sent — in particular no
metadata fetch), and leaves the stored state unchanged; it is a pure
lookup of the existing Activity row. -/
theorem C1_ingest_idempotent (db : DB) (uid aid : Nat)
    (remote remote2 : Remote) (r : IngestResult)
    (h : fetch_and_store_activity db uid aid remote = .ok r) :
    fetch_and_store_activity r.db uid aid remote2 =
      .ok { activityId := r.activityId, db := r.db, metadataFetches := 0,
            streamFetches := 0, bearerToken := none,
            recalcEnqueued := false } := by
  rcases fetch_ok_inversion h with
    ⟨user, existing, hu, hex, hr⟩ | ⟨user, meta, hu, hex, hm, hr⟩
  · subst hr
    exact fetch_eq_of_existing hu hex
  · subst hr
    have hu' : ({ db with
        activities := db.activities ++ [newActivityOf db aid user meta]
        streams := db.streams ++ ingestRows db meta remote.streamsFetch
        nextId := db.nextId + 1 +
          (ingestRows db meta remote.streamsFetch).length } : DB).users.find?
        (fun u => u.id == uid) = some user := hu
    have hex' : ({ db with
        activities := db.activities ++ [newActivityOf db aid user meta]
        streams := db.streams ++ ingestRows db meta remote.streamsFetch
        nextId := db.nextId + 1 +
          (ingestRows db meta remote.streamsFetch).length } : DB).activities.find?
        (fun a => a.strava_id == aid) = some (newActivityOf db aid user meta) := by
      show (db.activities ++ [newActivityOf db aid user meta]).find?
        (fun a => a.strava_id == aid) = some (newActivityOf db aid user meta)
      rw [List.find?_append, hex]
      simp [newActivityOf]
    exact fetch_eq_of_existing hu' hex'

/-! ### Concrete fixtures used by witnesses and counterexamples -/

def exUser : User :=
  { id := 1, strava_athlete_id := 42, access_token := "stale",
    refresh_token := "refresh0", token_expires_at := some 100 }

def exDB : DB :=
  { users := [exUser], activities := [], streams := [], nextId := 10 }

def exMeta : ActivityMeta :=
  { name := "Morning Ride", start_date := 0, distance := 1000,
    moving_time := 60, total_elevation_gain := some 12,
    average_watts := some 200, average_heartrate := none }

def exRemoteNoStreams : Remote :=
  { activityFetch := .ok exMeta, streamsFetch := .httpError 500 "error" }

def exRemoteExn : Remote :=
  { activityFetch := .ok exMeta, streamsFetch := .exn "boom" }

def exActivity : Activity :=
  { id := 10, user_id := 1, strava_id := 555, name := "Morning Ride",
    start_time := 0, distance_m := 1000, moving_time_s := 60,
    elev_gain_m := some 12, avg_power := some 200, avg_hr := none,
    tss := none, np := none }

def exIngest1 : IngestResult :=
  { activityId := 10
    db := { users := [exUser], activities := [exActivity], streams := [],
            nextId := 11 }
    metadataFetches := 1, streamFetches := 1, bearerToken := some "stale",
    recalcEnqueued := true }

def exRefresh : RefreshResponse :=
  { access_token := "fresh", refresh_token := "refresh1",
    expires_at := 9999 }

def exSD3 : StreamsData :=
  { time := some [0, 1, 2]
    latlng := some [some (1, 2), some (3, 4), none]
    altitude := none, heartrate := none
    watts := some [some 100, some 110, some 120]
    cadence := none, velocity_smooth := none, temp := none
    moving := none, grade_smooth := none }

def exRemote3 : Remote :=
  { activityFetch := .ok exMeta, streamsFetch := .ok exSD3 }

def exSD4 : StreamsData :=
  { time := some [0, 2, 4]
    latlng := some [some (0, 0), some (0, 0), some (0, 0)]
    altitude := none, heartrate := none, watts := none, cadence := none
    velocity_smooth := some [some 1, some 1, some 1]
    temp := none, moving := none, grade_smooth := none }

def exBody7 : WebhookBody :=
  { aspect_type := some "create", object_type := some "activity",
    object_id := some 777, owner_id := some 42 }

def exBody10 : WebhookBody :=
  { aspect_type := some "create", object_type := some "activity",
    object_id := some 888, owner_id := some 43 }

def exDefaultStream : Stream :=
  { id := 0, activity_id := 0, timestamp := 0, lat := none, lon := none,
    altitude := none, distance := 0, velocity_smooth := none,
    heartrate := none, cadence := none, watts := none, temp := none,
    moving := none, grade_smooth := none }

/-- Witness for C1: a first ingestion of activity 555 against `exDB`
succeeds with result `exIngest1`; the second call is then a pure lookup
returning the same identifier with zero external requests. -/
theorem C1_witness :
    fetch_and_store_activity exIngest1.db 1 555 exRemoteExn =
      .ok { activityId := exIngest1.activityId, db := exIngest1.db,
            metadataFetches := 0, streamFetches := 0, bearerToken := none,
            recalcEnqueued := false } :=
  C1_ingest_idempotent exDB 1 555 exRemoteNoStreams exRemoteExn exIngest1 rfl

/-! ### Claims C5 and C6 -/

theorem get_client_refresh {db : DB} {uid : Nat} {now : Int}
    {refresh : RefreshResponse} {user : User} {exp : Int}
    (hu : db.users.find? (fun u => u.id == uid) = some user)
    (he : user.token_expires_at = some exp) (hle : exp ≤ now + 300) :
    get_client db none (some uid) now refresh =
      .ok (some refresh.access_token,
        { db with users :=
            updateUser db.users user.id (refreshedUser user refresh) }) := by
  simp only [get_client, hu, he, if_pos hle]

theorem get_client_no_refresh {db : DB} {uid : Nat} {now : Int}
    {refresh : RefreshResponse} {user : User} {exp : Int}
    (hu : db.users.find? (fun u => u.id == uid) = some user)
    (he : user.token_expires_at = some exp) (hgt : now + 300 < exp) :
    get_client db none (some uid) now refresh =
      .ok (some user.access_token, db) := by
  simp only [get_client, hu, he, if_neg (not_le.mpr hgt)]

/-- C5 counterexample: the user's stored credential expired long before
`now = 1000` (so it is within the 5-minute refresh window the claim
invokes), yet ingesting a new activity uses the stale stored token as the
bearer token and leaves the User record untouched — no refreshed
credential is persisted, contradicting the claim that every ingestion
obtains its token via the refresh-on-demand contract. -/
theorem C5_counterexample :
    exUser.token_expires_at = some 100 ∧ (100 : Int) ≤ 1000 + 300 ∧
    (fetch_and_store_activity exDB 1 555 exRemoteNoStreams).toOption.map
        (fun r => (r.bearerToken, r.db.users)) =
      some (some "stale", [exUser]) := by decide

/-- C5 (amended): `fetch_and_store_activity` uses the user's stored
access token directly as the bearer token for its fetches and never
modifies the stored credential, regardless of expiry; the refresh
contract the claim describes — refresh when the credential expires within
5 minutes and persist the refreshed credential to the User record before
returning the token — is implemented by `get_client`, which the ingestion
path does not invoke. -/
theorem C5_token_contract :
    (∀ (db : DB) (uid aid : Nat) (remote : Remote) (user : User)
        (meta : ActivityMeta),
      db.users.find? (fun u => u.id == uid) = some user →
      db.activities.find? (fun a => a.strava_id == aid) = none →
      remote.activityFetch = .ok meta →
      ∃ r, fetch_and_store_activity db uid aid remote = .ok r ∧
        r.bearerToken = some user.access_token ∧
        r.db.users = db.users) ∧
    (∀ (db : DB) (uid : Nat) (now : Int) (refresh : RefreshResponse)
        (user : User) (exp : Int),
      db.users.find? (fun u => u.id == uid) = some user →
      user.token_expires_at = some exp →
      (exp ≤ now + 300 →
        get_client db none (some uid) now refresh =
          .ok (some refresh.access_token,
            { db with users :=
                updateUser db.users user.id (refreshedUser user refresh) })) ∧
      (now + 300 < exp →
        get_client db none (some uid) now refresh =
          .ok (some user.access_token, db))) := by
  constructor
  · intro db uid aid remote user meta hu hex hm
    exact ⟨_, fetch_eq_of_new hu hex hm, rfl, rfl⟩
  · intro db uid now refresh user exp hu he
    exact ⟨fun hle => get_client_refresh hu he hle,
           fun hgt => get_client_no_refresh hu he hgt⟩

/-- Witness for C5 (amended) at the concrete fixtures: ingestion of
activity 555 uses the stored token `"stale"` and leaves the users table
unchanged, while `get_client` at `now = 1000` refreshes the
expired-at-100 credential and persists it. -/
theorem C5_witness :
    (∃ r, fetch_and_store_activity exDB 1 555 exRemoteNoStreams = .ok r ∧
      r.bearerToken = some exUser.access_token ∧
      r.db.users = exDB.users) ∧
    get_client exDB none (some 1) 1000 exRefresh =
      .ok (some exRefresh.access_token,
        { exDB with users :=
            updateUser exDB.users exUser.id (refreshedUser exUser exRefresh) }) :=
  ⟨C5_token_contract.1 exDB 1 555 exRemoteNoStreams exUser exMeta rfl rfl rfl,
   (C5_token_contract.2 exDB 1 1000 exRefresh exUser 100 rfl rfl).1 (by decide)⟩

/-- C6: when the metadata fetch succeeds but the streams fetch returns a
non-success status or raises, ingestion does not fail: no Stream rows are
created, the Activity row is still committed with the requested external
id for the requesting user, and its identifier is returned. -/
theorem C6_stream_failure_graceful (db : DB) (uid aid : Nat)
    (remote : Remote) (user : User) (meta : ActivityMeta)
    (hu : db.users.find? (fun u => u.id == uid) = some user)
    (hex : db.activities.find? (fun a => a.strava_id == aid) = none)
    (hm : remote.activityFetch = .ok meta)
    (hsf : ∀ sd, remote.streamsFetch ≠ .ok sd) :
    ∃ r a, fetch_and_store_activity db uid aid remote = .ok r ∧
      r.db.streams = db.streams ∧
      r.db.activities = db.activities ++ [a] ∧
      a.strava_id = aid ∧ a.user_id = user.id ∧ r.activityId = a.id := by
  have hrows : ingestRows db meta remote.streamsFetch = [] := by
    cases hsf2 : remote.streamsFetch with
    | ok sd => exact absurd hsf2 (hsf sd)
    | httpError s t => rfl
    | exn m => rfl
  refine ⟨_, newActivityOf db aid user meta, fetch_eq_of_new hu hex hm,
    ?_, rfl, rfl, rfl, rfl⟩
  show db.streams ++ ingestRows db meta remote.streamsFetch = db.streams
  rw [hrows, List.append_nil]

/-- Witness for C6: ingesting activity 555 while the streams fetch raises
stores the activity metadata-only and returns its id. -/
theorem C6_witness :
    ∃ r a, fetch_and_store_activity exDB 1 555 exRemoteExn = .ok r ∧
      r.db.streams = exDB.streams ∧
      r.db.activities = exDB.activities ++ [a] ∧
      a.strava_id = 555 ∧ a.user_id = exUser.id ∧ r.activityId = a.id :=
  C6_stream_failure_graceful exDB 1 555 exRemoteExn exUser exMeta
    rfl rfl rfl (fun _ h => StreamFetch.noConfusion h)

/-! ### Claims C3 and C4 -/

theorem getD_replicate_none {α : Type} (n i : ℕ) :
    (List.replicate n (none : Option α)).getD i none = none := by
  rw [List.getD_eq_getElem?_getD, List.getElem?_replicate]
  split <;> rfl

theorem range_map_getD {α : Type} (n i : ℕ) (f : ℕ → α) (d : α)
    (h : i < n) :
    ((List.range n).map f).getD i d = f i := by
  rw [List.getD_eq_getElem?_getD, List.getElem?_map, List.getElem?_range h]
  rfl

theorem buildStreamRows_length (aid rid : Nat) (start : Int)
    (td : List Int) (ld : List (Option (ℚ × ℚ))) (sd : StreamsData) :
    (buildStreamRows aid rid start td ld sd).length = td.length := by
  simp [buildStreamRows]

/-- C3 counterexample to the claim as stated: ingesting streams that
contain only the `time`, `latlng` and `watts` channels produces rows
whose `moving` field is the integer 0, not a null — the omitted `moving`
channel does not yield an absent value. -/
theorem C3_counterexample :
    exSD3.moving = none ∧
    (fetch_and_store_activity exDB 1 555 exRemote3).toOption.map
        (fun r => r.db.streams.map (fun s => s.moving)) =
      some [some 0, some 0, some 0] ∧
    (some (0 : Int) : Option Int) ≠ none := by decide

/-- C3 (amended): when the source returns the mandatory `time` and
`latlng` channels and omits the optional heart-rate, cadence,
temperature, moving and grade channels, ingestion raises no exception,
creates exactly one Stream row per time sample, and every created row has
null `heartrate`, `cadence`, `temp` and `grade_smooth` — but `moving` is
the integer 0, not null (the code coerces the absent moving flag through
Python truthiness to 0). -/
theorem C3_optional_channels_absent (db : DB) (uid aid : Nat)
    (remote : Remote) (user : User) (meta : ActivityMeta)
    (sd : StreamsData) (td : List Int) (ld : List (Option (ℚ × ℚ)))
    (hu : db.users.find? (fun u => u.id == uid) = some user)
    (hex : db.activities.find? (fun a => a.strava_id == aid) = none)
    (hm : remote.activityFetch = .ok meta)
    (hsf : remote.streamsFetch = .ok sd)
    (ht : sd.time = some td) (hl : sd.latlng = some ld)
    (hhr : sd.heartrate = none) (hcad : sd.cadence = none)
    (htemp : sd.temp = none) (hmov : sd.moving = none)
    (hgr : sd.grade_smooth = none) :
    ∃ r, fetch_and_store_activity db uid aid remote = .ok r ∧
      r.db.streams.length = db.streams.length + td.length ∧
      ∀ s ∈ r.db.streams.drop db.streams.length,
        s.heartrate = none ∧ s.cadence = none ∧ s.temp = none ∧
        s.grade_smooth = none ∧ s.moving = some 0 := by
  have hne : sd.isEmpty = false := by
    simp [StreamsData.isEmpty, ht]
  have hrows : ingestRows db meta remote.streamsFetch =
      buildStreamRows db.nextId (db.nextId + 1) meta.start_date td ld sd := by
    rw [hsf]
    simp only [ingestRows, hne, ht, hl]
    rfl
  refine ⟨_, fetch_eq_of_new hu hex hm, ?_, ?_⟩
  · show (db.streams ++ ingestRows db meta remote.streamsFetch).length = _
    rw [hrows, List.length_append, buildStreamRows_length]
  · intro s hs
    have hs' : s ∈ (db.streams ++
        ingestRows db meta remote.streamsFetch).drop db.streams.length := hs
    rw [List.drop_left, hrows] at hs'
    simp only [buildStreamRows, List.mem_map, List.mem_range] at hs'
    obtain ⟨i, hi, rfl⟩ := hs'
    refine ⟨?_, ?_, ?_, ?_, ?_⟩ <;>
      simp [hhr, hcad, htemp, hmov, hgr, getD_replicate_none]

/-- Witness for C3 (amended) at the concrete fixtures: streams of length
3 with only `time`, `latlng` and `watts`. -/
theorem C3_witness :
    ∃ r, fetch_and_store_activity exDB 1 555 exRemote3 = .ok r ∧
      r.db.streams.length = exDB.streams.length + ([0, 1, 2] : List Int).length ∧
      ∀ s ∈ r.db.streams.drop exDB.streams.length,
        s.heartrate = none ∧ s.cadence = none ∧ s.temp = none ∧
        s.grade_smooth = none ∧ s.moving = some 0 :=
  C3_optional_channels_absent exDB 1 555 exRemote3 exUser exMeta exSD3
    [0, 1, 2] [some (1, 2), some (3, 4), none]
    rfl rfl rfl rfl rfl rfl rfl rfl rfl rfl rfl

/-- C4 counterexample to the claim as stated: with time channel
`[0, 2, 4]` and constant velocity 1, the row built at index 2 has
`distance = 4` (cumulative offset 4 × velocity 1), while the claimed
value — the offset delta `4 − 2 = 2` times the velocity — is 2. -/
theorem C4_counterexample :
    ((buildStreamRows 10 11 0 [0, 2, 4]
        [some (0, 0), some (0, 0), some (0, 0)] exSD4).getD 2
          exDefaultStream).distance = 4 ∧
    ((((([0, 2, 4] : List Int).getD 2 0 -
        ([0, 2, 4] : List Int).getD 1 0 : ℤ) : ℚ)) * 1 = 2) ∧
    ((4 : ℚ) ≠ 2) := by
  refine ⟨?_, by norm_num, by norm_num⟩
  simp only [buildStreamRows]
  rw [range_map_getD ([0, 2, 4] : List Int).length 2 _ exDefaultStream
    (by decide)]
  norm_num [exSD4]

/-- C4 (amended): the Stream row built at index `i` of the time channel
has timestamp equal to the activity start time plus `offset_seconds[i]`,
and its `distance` field equals the cumulative offset `offset_seconds[i]`
(not the per-index increment) multiplied by the velocity at index `i`
(taken as 0 when the velocity channel or sample is absent). -/
theorem C4_timestamp_and_distance (aid rid : Nat) (start : Int)
    (td : List Int) (ld : List (Option (ℚ × ℚ))) (sd : StreamsData)
    (i : ℕ) (h : i < td.length) (d : Stream) :
    ((buildStreamRows aid rid start td ld sd).getD i d).timestamp =
      start + td.getD i 0 ∧
    ((buildStreamRows aid rid start td ld sd).getD i d).distance =
      ((td.getD i 0 : ℤ) : ℚ) *
        (((sd.velocity_smooth.getD
            (List.replicate td.length none)).getD i none).getD 0) := by
  simp only [buildStreamRows]
  rw [range_map_getD td.length i _ d h]
  exact ⟨rfl, rfl⟩

/-- Witness for C4 (amended) at index 1 of the `exSD4` streams. -/
theorem C4_witness :
    (1 < ([0, 2, 4] : List Int).length) ∧
    (((buildStreamRows 10 11 0 [0, 2, 4]
        [some (0, 0), some (0, 0), some (0, 0)] exSD4).getD 1
          exDefaultStream).timestamp = 0 + ([0, 2, 4] : List Int).getD 1 0 ∧
     ((buildStreamRows 10 11 0 [0, 2, 4]
        [some (0, 0), some (0, 0), some (0, 0)] exSD4).getD 1
          exDefaultStream).distance =
        ((([0, 2, 4] : List Int).getD 1 0 : ℤ) : ℚ) *
          (((exSD4.velocity_smooth.getD
              (List.replicate ([0, 2, 4] : List Int).length none)).getD 1
                none).getD 0)) :=
  ⟨by decide,
   C4_timestamp_and_distance 10 11 0 [0, 2, 4]
     [some (0, 0), some (0, 0), some (0, 0)] exSD4 1 (by decide)
     exDefaultStream⟩

/-! ### Claims C7 and C10 -/

/-- C7: for a webhook POST whose body is a create/activity event with an
owner matching a stored user, a present and valid signature header (equal
to `"sha1="` followed by the HMAC-SHA1 digest of the raw body) leads to
exactly one ingestion task being enqueued for that activity, while a
present but invalid signature header is rejected with HTTP 403 and
nothing is enqueued. -/
theorem C7_webhook_signature (db : DB) (computed : String)
    (body : WebhookBody) (oid owner : Nat) (user : User)
    (ha : body.aspect_type = some "create")
    (ho : body.object_type = some "activity")
    (hoid : body.object_id = some oid)
    (howner : body.owner_id = some owner)
    (hu : db.users.find? (fun u => u.strava_athlete_id == owner) = some user) :
    webhook_event db (some ("sha1=" ++ computed)) computed body =
      .response "ok" ("Activity " ++ toString oid ++ " queued for processing")
        [(user.id, oid)] ∧
    ∀ sig, sig ≠ "sha1=" ++ computed →
      webhook_event db (some sig) computed body =
        .rejected 403 "Invalid signature" := by
  constructor
  · simp only [webhook_event, if_pos rfl, process_event, ha, ho, hoid, howner,
      hu, and_self, if_true]
  · intro sig hs
    have hne : ¬("sha1=" ++ computed = sig) := fun hc => hs hc.symm
    simp only [webhook_event, if_neg hne]

/-- Witness for C7: a signed create/activity event for athlete 42 (user
`exUser`) and activity 777, with digest `"d1g3st"`. -/
theorem C7_witness :
    webhook_event exDB (some ("sha1=" ++ "d1g3st")) "d1g3st" exBody7 =
      .response "ok" ("Activity " ++ toString 777 ++ " queued for processing")
        [(exUser.id, 777)] ∧
    ∀ sig, sig ≠ "sha1=" ++ "d1g3st" →
      webhook_event exDB (some sig) "d1g3st" exBody7 =
        .rejected 403 "Invalid signature" :=
  C7_webhook_signature exDB "d1g3st" exBody7 777 42 exUser
    rfl rfl rfl rfl rfl

/-- C10: a create/activity webhook event whose `owner_id` matches no
stored user raises nothing and enqueues nothing: both an unsigned request
and a validly signed one get a JSON acknowledgement with an error-status
message (not a `rejected` HTTP failure) and an empty enqueue list; the
handler only reads the database, so stored state is unchanged. -/
theorem C10_webhook_unknown_owner (db : DB) (computed : String)
    (body : WebhookBody) (oid owner : Nat)
    (ha : body.aspect_type = some "create")
    (ho : body.object_type = some "activity")
    (hoid : body.object_id = some oid)
    (howner : body.owner_id = some owner)
    (hu : db.users.find? (fun u => u.strava_athlete_id == owner) = none) :
    webhook_event db none computed body =
      .response "error"
        ("No user found for Strava athlete ID: " ++ toString owner) [] ∧
    webhook_event db (some ("sha1=" ++ computed)) computed body =
      .response "error"
        ("No user found for Strava athlete ID: " ++ toString owner) [] := by
  constructor
  · simp only [webhook_event, process_event, ha, ho, hoid, howner, hu,
      and_self, if_true]
  · simp only [webhook_event, if_pos rfl, process_event, ha, ho, hoid,
      howner, hu, and_self, if_true]

/-- Witness for C10: a create/activity event for unknown athlete 43. -/
theorem C10_witness :
    webhook_event exDB none "d1g3st" exBody10 =
      .response "error"
        ("No user found for Strava athlete ID: " ++ toString 43) [] ∧
    webhook_event exDB (some ("sha1=" ++ "d1g3st")) "d1g3st" exBody10 =
      .response "error"
        ("No user found for Strava athlete ID: " ++ toString 43) [] :=
  C10_webhook_unknown_owner exDB "d1g3st" exBody10 888 43
    rfl rfl rfl rfl rfl

end RideApp
